import Mathlib

/-!
Shallow embedding of the gpiodzero library core (src/base/base.py,
src/base/pwm.py, src/composants/button.py, src/composants/ledrgb.py)
and proofs about its specified behaviour.
-/

namespace Gpiodzero

/-! ### Python values and truthiness

`PinOut.write` coerces its argument with `value = 1 if value else 0`; we model
the relevant universe of Python values with their truthiness. -/

inductive PyValue where
  | int : Int → PyValue
  | bool : Bool → PyValue
  | none : PyValue
  | str : String → PyValue
deriving DecidableEq

def pyTruthy : PyValue → Bool
  | PyValue.int n => n != 0
  | PyValue.bool b => b
  | PyValue.none => false
  | PyValue.str s => s != ""

/-- The bit `1 if value else 0` computed at the top of `PinOut.write`. -/
def coerceBit (v : PyValue) : Nat :=
  if pyTruthy v then 1 else 0

/-! ### PinOut (src/base/base.py, class PinOut)

Only the Python-level mutable state is modelled: the private `__state` field.
The underlying gpiod line is modelled as a function `lineFails : Nat → Bool`
saying whether writing a given bit raises IOError. -/

structure PinOut where
  state : Nat
deriving DecidableEq

/-- `PinOut.__init__`: `self.__state = 1 if initial_value else 0`. -/
def PinOut.init (initial_value : PyValue) : PinOut :=
  { state := if pyTruthy initial_value then 1 else 0 }

/-- `PinOut.write`: `value = 1 if value else 0; self.__state = value;` then the
gpiod line write (`set_value`), which may raise IOError.  The state assignment
happens before the line write, so the new state persists even when the line
write raises; the second component records whether IOError was raised. -/
def PinOut.write (lineFails : Nat → Bool) (p : PinOut) (value : PyValue) :
    PinOut × Bool :=
  let b := coerceBit value
  ({ state := b }, lineFails b)

/-- A sequence of `write` calls, threading the object state. -/
def PinOut.runWrites (lineFails : Nat → Bool) (p : PinOut) :
    List PyValue → PinOut
  | [] => p
  | v :: vs => PinOut.runWrites lineFails (PinOut.write lineFails p v).1 vs

/-! ### PWM (src/base/pwm.py, class PWM) -/

structure PWM where
  pin : PinOut
  frequency : Int
  duty_value : Int
  duty_max : Int
  running : Bool
  thread : Bool
deriving DecidableEq

/-- `PWM.__init__`: `super().__init__(initial_value=0)`, frequency stored,
`__duty_value = 0`, `__duty_max = 255`, `__running = False`,
`__thread = None`. -/
def PWM.init (frequency : Int) : PWM :=
  { pin := PinOut.init (PyValue.int 0)
    frequency := frequency
    duty_value := 0
    duty_max := 255
    running := false
    thread := false }

/-- The `frequency` property setter: `self.__frequency = value`, with no
validation of any kind. -/
def PWM.setFrequency (p : PWM) (value : Int) : PWM :=
  { p with frequency := value }

/-- `PWM.duty_cycle_8`: sets `__duty_max = 255` first; then, if `value is
None`, returns the current `__duty_value`, otherwise stores
`max(0, min(value, self.__duty_max))`.  Result: (new object state, returned
value). -/
def PWM.duty_cycle_8 (p : PWM) (value : Option Int) : PWM × Option Int :=
  let p1 := { p with duty_max := 255 }
  match value with
  | Option.none => (p1, some p1.duty_value)
  | some v => ({ p1 with duty_value := max 0 (min v p1.duty_max) }, Option.none)

/-- `PWM.duty_cycle_10`: same shape with maximum 1023. -/
def PWM.duty_cycle_10 (p : PWM) (value : Option Int) : PWM × Option Int :=
  let p1 := { p with duty_max := 1023 }
  match value with
  | Option.none => (p1, some p1.duty_value)
  | some v => ({ p1 with duty_value := max 0 (min v p1.duty_max) }, Option.none)

/-- `PWM.duty_cycle_12`: same shape with maximum 4095. -/
def PWM.duty_cycle_12 (p : PWM) (value : Option Int) : PWM × Option Int :=
  let p1 := { p with duty_max := 4095 }
  match value with
  | Option.none => (p1, some p1.duty_value)
  | some v => ({ p1 with duty_value := max 0 (min v p1.duty_max) }, Option.none)

/-- `PWM.duty_cycle_16`: same shape with maximum 65535. -/
def PWM.duty_cycle_16 (p : PWM) (value : Option Int) : PWM × Option Int :=
  let p1 := { p with duty_max := 65535 }
  match value with
  | Option.none => (p1, some p1.duty_value)
  | some v => ({ p1 with duty_value := max 0 (min v p1.duty_max) }, Option.none)

/-- `PWM.start`: no-op if running; otherwise sets `__running = True` and
spawns the thread (`__thread` becomes a live object). -/
def PWM.start (p : PWM) : PWM :=
  if p.running then p
  else { p with running := true, thread := true }

/-- `PWM.stop`: guarded by `if self.__running`; in that case sets
`__running = False`, joins the thread if `__thread` is set, and writes 0 to the
pin via `super().write(0)`.  Result: (new state, performed a write, joined a
thread). -/
def PWM.stop (p : PWM) : PWM × Bool × Bool :=
  if p.running then
    ({ p with running := false, pin := { state := coerceBit (PyValue.int 0) } },
      true, p.thread)
  else (p, false, false)

/-- The specified invariant on PWM duty state:
`0 <= duty_numerator <= duty_denominator`. -/
def PWM.Inv (p : PWM) : Prop :=
  0 ≤ p.duty_value ∧ p.duty_value ≤ p.duty_max

instance (p : PWM) : Decidable (PWM.Inv p) := by
  unfold PWM.Inv
  infer_instance

/-! ### The PWM timing loop (src/base/pwm.py, `__pwm_thread`)

`period = 1.0 / self.__frequency` is computed once, before the loop; each loop
iteration then re-reads `__duty_value` and `__duty_max` to compute
`on_time = period * (duty_value / duty_max)` and `off_time = period - on_time`
(the subsequent pin writes and sleeps are driven by these durations).  The
fields the loop observes at the top of iteration `n` are given by a trace
`fieldsAt`, since the environment may mutate them between iterations.  Python
floats are modelled as rationals. -/

structure PWMFields where
  duty_value : Int
  duty_max : Int
  frequency : Int
deriving DecidableEq

/-- The (on_time, off_time) pairs produced by the first `steps` iterations of
`__pwm_thread`, started while the fields read `startFields`. -/
def pwmThreadOutputs (startFields : PWMFields) (fieldsAt : Nat → PWMFields)
    (steps : Nat) : List (ℚ × ℚ) :=
  let period : ℚ := 1 / (startFields.frequency : ℚ)
  (List.range steps).map fun n =>
    let f := fieldsAt n
    let on_time : ℚ := period * ((f.duty_value : ℚ) / (f.duty_max : ℚ))
    (on_time, period - on_time)

/-- Modelled from the spec claim: the loop as the claim describes it, with the
period recomputed from the current frequency at the top of every iteration
(`period = 1/new_frequency` at the next cycle boundary).  To be compared with
`pwmThreadOutputs`, which follows the source. -/
def pwmThreadOutputsSpec (fieldsAt : Nat → PWMFields) (steps : Nat) :
    List (ℚ × ℚ) :=
  (List.range steps).map fun n =>
    let f := fieldsAt n
    let period : ℚ := 1 / (f.frequency : ℚ)
    let on_time : ℚ := period * ((f.duty_value : ℚ) / (f.duty_max : ℚ))
    (on_time, period - on_time)

/-! ### LEDRGB (src/composants/ledrgb.py) -/

inductive PyError where
  | valueError : String → PyError
deriving DecidableEq

structure LEDRGB where
  frequency : Int
  red : PWM
  green : PWM
  blue : PWM
deriving DecidableEq

/-- `LEDRGB.__init__`: three PWMs at the common frequency, each set to 16-bit
duty 0. -/
def LEDRGB.init (frequency : Int) : LEDRGB :=
  { frequency := frequency
    red := ((PWM.init frequency).duty_cycle_16 (some 0)).1
    green := ((PWM.init frequency).duty_cycle_16 (some 0)).1
    blue := ((PWM.init frequency).duty_cycle_16 (some 0)).1 }

/-- `LEDRGB.frequency`: with no argument returns the stored frequency; with a
value `<= 0` raises `ValueError("La fréquence doit être > 0 Hz")` before any
mutation; otherwise stores it and propagates it to the three PWMs, returning
the new frequency. -/
def LEDRGB.frequencyMethod (l : LEDRGB) (value : Option Int) :
    Except PyError (LEDRGB × Int) :=
  match value with
  | Option.none => Except.ok (l, l.frequency)
  | some v =>
    if v ≤ 0 then
      Except.error (PyError.valueError "La fréquence doit être > 0 Hz")
    else
      let l1 : LEDRGB :=
        { frequency := v
          red := l.red.setFrequency v
          green := l.green.setFrequency v
          blue := l.blue.setFrequency v }
      Except.ok (l1, v)

/-! ### Button (src/composants/button.py) -/

inductive Pull where
  | up
  | down
  | none
deriving DecidableEq

/-- `Button.is_pressed`: reads the raw level `val` from the line; pressed is
`val == 0` under pull-up, `val == 1` under pull-down, and `bool(val)`
otherwise. -/
def Button.is_pressed (pull : Pull) (val : Int) : Bool :=
  match pull with
  | Pull.up => val == 0
  | Pull.down => val == 1
  | Pull.none => val != 0

inductive ButtonEvent where
  | press
  | release
deriving DecidableEq

/-- One pass of the `Button._monitor` loop body: `sample1` is `is_pressed()`
read at the top of the loop; when it differs from `_last_state` the loop
sleeps `debounce_time` and re-samples, getting `sample2`; only if the
re-sample still differs is the callback fired and `_last_state` updated.
Result: (new `_last_state`, fired callback). -/
def Button.monitorStep (last sample1 sample2 : Bool) :
    Bool × Option ButtonEvent :=
  if sample1 != last then
    if sample2 != last then
      (sample2,
        some (if sample2 then ButtonEvent.press else ButtonEvent.release))
    else (last, Option.none)
  else (last, Option.none)

/-! ## Theorems -/

/-- Claim C1, counterexample: with the denominator at 65535 (after a set
through the 16-bit accessor), a query through the 8-bit accessor changes
`duty_max` from 65535 to 255 — the query does not leave the denominator
unchanged. -/
theorem duty_query_changes_duty_max_cex :
    (((PWM.init 1000).duty_cycle_16 (some 1000)).1.duty_max = 65535) ∧
    ((((PWM.init 1000).duty_cycle_16 (some 1000)).1.duty_cycle_8
        Option.none).1.duty_max = 255) ∧
    (255 : Int) ≠ 65535 := by
  refine ⟨rfl, rfl, by decide⟩

/-- Claim C1 (amended): a query (no value supplied) returns the current raw
numerator and leaves the numerator unchanged, but it sets `duty_max` to the
accessor's own resolution maximum — the denominator is unchanged only when it
already equals that maximum. -/
theorem duty_query_sets_resolution_max (p : PWM) :
    ((p.duty_cycle_8 Option.none).2 = some p.duty_value ∧
      (p.duty_cycle_8 Option.none).1.duty_value = p.duty_value ∧
      (p.duty_cycle_8 Option.none).1.duty_max = 255) ∧
    ((p.duty_cycle_10 Option.none).2 = some p.duty_value ∧
      (p.duty_cycle_10 Option.none).1.duty_value = p.duty_value ∧
      (p.duty_cycle_10 Option.none).1.duty_max = 1023) ∧
    ((p.duty_cycle_12 Option.none).2 = some p.duty_value ∧
      (p.duty_cycle_12 Option.none).1.duty_value = p.duty_value ∧
      (p.duty_cycle_12 Option.none).1.duty_max = 4095) ∧
    ((p.duty_cycle_16 Option.none).2 = some p.duty_value ∧
      (p.duty_cycle_16 Option.none).1.duty_value = p.duty_value ∧
      (p.duty_cycle_16 Option.none).1.duty_max = 65535) := by
  exact ⟨⟨rfl, rfl, rfl⟩, ⟨rfl, rfl, rfl⟩, ⟨rfl, rfl, rfl⟩, ⟨rfl, rfl, rfl⟩⟩

/-- Claim C5, counterexample: with a line whose write fails, `write(1)` on a
pin whose state is 0 raises IOError and yet leaves `state = 1` — `last_value`
does not stay at the previously written value. -/
theorem write_state_changed_on_failure_cex :
    (PinOut.write (fun _ => true) { state := 0 } (PyValue.int 1)).2 = true ∧
    (PinOut.write (fun _ => true) { state := 0 } (PyValue.int 1)).1.state
      = 1 ∧
    (1 : Nat) ≠ 0 := by
  refine ⟨rfl, rfl, by decide⟩

/-- Claim C5 (amended): `write` assigns the coerced bit to `state` before the
underlying line write, so the stored state always equals the bit of the most
recent attempted write — including when the underlying write fails with
IOError. -/
theorem write_state_reflects_attempted_value
    (lineFails : Nat → Bool) (p : PinOut) (v : PyValue) :
    (PinOut.write lineFails p v).1.state = (if pyTruthy v then 1 else 0) ∧
    (PinOut.write lineFails p v).2 = lineFails (coerceBit v) := by
  exact ⟨rfl, rfl⟩

/-- Claim C6: for every integer `n` and each resolution maximum `d` among
255, 1023, 4095 and 65535, setting the duty to `n` through that resolution's
accessor and then querying through the same accessor returns
`max 0 (min n d)`. -/
theorem duty_set_then_get_clamps (p : PWM) (n : Int) :
    ((p.duty_cycle_8 (some n)).1.duty_cycle_8 Option.none).2
      = some (max 0 (min n 255)) ∧
    ((p.duty_cycle_10 (some n)).1.duty_cycle_10 Option.none).2
      = some (max 0 (min n 1023)) ∧
    ((p.duty_cycle_12 (some n)).1.duty_cycle_12 Option.none).2
      = some (max 0 (min n 4095)) ∧
    ((p.duty_cycle_16 (some n)).1.duty_cycle_16 Option.none).2
      = some (max 0 (min n 65535)) := by
  exact ⟨rfl, rfl, rfl, rfl⟩

/-- Claim C8: for a raw level `v` equal to 0 or 1, `is_pressed` returns
`v == 0` under pull-up, `v == 1` under pull-down, and the boolean value of `v`
(Python truthiness, `v != 0`) with no pull. -/
theorem is_pressed_polarity (v : Int) (h : v = 0 ∨ v = 1) :
    Button.is_pressed Pull.up v = decide (v = 0) ∧
    Button.is_pressed Pull.down v = decide (v = 1) ∧
    Button.is_pressed Pull.none v = decide (v ≠ 0) := by
  rcases h with h | h <;> subst h <;> exact ⟨by decide, by decide, by decide⟩

/-- Claim C8, witness at raw level 1. -/
theorem is_pressed_polarity_witness :
    Button.is_pressed Pull.up 1 = decide ((1 : Int) = 0) ∧
    Button.is_pressed Pull.down 1 = decide ((1 : Int) = 1) ∧
    Button.is_pressed Pull.none 1 = decide ((1 : Int) ≠ 0) :=
  is_pressed_polarity 1 (Or.inr rfl)

/-- Claim C9: in one monitor-loop pass where the first sample differs from
`_last_state`, a re-sample that has reverted to `_last_state` fires no
callback and leaves `_last_state` unchanged; a re-sample that still differs
fires exactly one callback (press if the new state is pressed, release
otherwise) and updates `_last_state` to the new state. -/
theorem monitor_debounce_behavior (last s1 s2 : Bool) (hflip : s1 ≠ last) :
    Button.monitorStep last s1 s2 =
      (if s2 = last then (last, Option.none)
       else (s2,
         some (if s2 then ButtonEvent.press else ButtonEvent.release))) := by
  cases last <;> cases s1 <;> cases s2 <;> simp_all [Button.monitorStep]

/-- Claim C9, witness: a flip from released to pressed that is still pressed
at the debounce re-sample fires exactly one press callback and updates the
stable state. -/
theorem monitor_debounce_behavior_witness :
    Button.monitorStep false true true = (true, some ButtonEvent.press) := by
  have h := monitor_debounce_behavior false true true (by decide)
  simpa using h

/-- Claim C10: `write` stores (and passes to the line) exactly 1 when the
argument is truthy and 0 when it is falsy, for every modelled Python value;
together with the constructor's coercion of `initial_value`, the state of an
output pin is always 0 or 1, across any sequence of writes. -/
theorem write_coerces_to_bit_state_boolean
    (lineFails : Nat → Bool) (p : PinOut) (v v0 : PyValue)
    (ws : List PyValue) :
    ((PinOut.write lineFails p v).1.state
        = (if pyTruthy v then 1 else 0)) ∧
    ((PinOut.init v0).state = 0 ∨ (PinOut.init v0).state = 1) ∧
    ((PinOut.runWrites lineFails (PinOut.init v0) ws).state = 0 ∨
      (PinOut.runWrites lineFails (PinOut.init v0) ws).state = 1) := by
  refine ⟨rfl, ?_, ?_⟩
  · unfold PinOut.init
    split <;> simp
  · have hinit : (PinOut.init v0).state = 0 ∨ (PinOut.init v0).state = 1 := by
      unfold PinOut.init
      split <;> simp
    have haux : ∀ (l : List PyValue) (q : PinOut),
        q.state = 0 ∨ q.state = 1 →
        (PinOut.runWrites lineFails q l).state = 0 ∨
          (PinOut.runWrites lineFails q l).state = 1 := by
      intro l
      induction l with
      | nil => intro q hq; exact hq
      | cons w l ih =>
        intro q hq
        refine ih _ ?_
        unfold PinOut.write coerceBit
        split <;> simp
    exact haux ws _ hinit

/-- Claim C2, counterexample: with the frequency field changed from 1000 to
500 after the first iteration, the loop's second iteration still uses period
1/1000 — it differs from what the claim asserts (period 1/500 from the next
cycle boundary, as expressed by `pwmThreadOutputsSpec`). -/
theorem pwm_thread_frequency_not_reread_cex :
    pwmThreadOutputs ⟨128, 255, 1000⟩
        (fun n => if n = 0 then ⟨128, 255, 1000⟩ else ⟨128, 255, 500⟩) 2 ≠
      pwmThreadOutputsSpec
        (fun n => if n = 0 then ⟨128, 255, 1000⟩ else ⟨128, 255, 500⟩) 2 := by
  simp only [pwmThreadOutputs, pwmThreadOutputsSpec, List.range_succ,
    List.range_zero, List.map, List.nil_append, List.cons_append,
    ne_eq, List.cons.injEq, Prod.mk.injEq]
  norm_num

/-- Claim C2 (amended): each loop iteration re-reads `duty_value` and
`duty_max`, so the outputs depend only on the duty fields the loop observes at
each iteration — two field traces agreeing on the duty fields give identical
outputs even if their frequency fields differ arbitrarily — and every
iteration's on-time plus off-time equals `1 / frequency-at-start`: the period
is fixed when the thread starts, so a frequency change while running never
takes effect. -/
theorem pwm_thread_duty_reread_frequency_fixed
    (start : PWMFields) (ft gt : Nat → PWMFields) (steps : Nat)
    (hduty : ∀ n, (ft n).duty_value = (gt n).duty_value)
    (hmax : ∀ n, (ft n).duty_max = (gt n).duty_max) :
    pwmThreadOutputs start ft steps = pwmThreadOutputs start gt steps ∧
    ∀ pr ∈ pwmThreadOutputs start ft steps,
      pr.1 + pr.2 = 1 / (start.frequency : ℚ) := by
  constructor
  · unfold pwmThreadOutputs
    refine List.map_congr_left ?_
    intro n _
    simp only [hduty n, hmax n]
  · intro pr hpr
    unfold pwmThreadOutputs at hpr
    simp only [List.mem_map] at hpr
    obtain ⟨n, _, rfl⟩ := hpr
    ring

/-- Claim C2, witness: a trace with constant fields against a trace whose
frequency changes after the first iteration. -/
theorem pwm_thread_duty_reread_frequency_fixed_witness :
    (pwmThreadOutputs ⟨128, 255, 1000⟩ (fun _ => ⟨128, 255, 1000⟩) 2 =
      pwmThreadOutputs ⟨128, 255, 1000⟩
        (fun n => ⟨128, 255, if n = 0 then 1000 else 500⟩) 2) ∧
    ∀ pr ∈ pwmThreadOutputs ⟨128, 255, 1000⟩ (fun _ => ⟨128, 255, 1000⟩) 2,
      pr.1 + pr.2 = 1 / (((⟨128, 255, 1000⟩ : PWMFields)).frequency : ℚ) :=
  pwm_thread_duty_reread_frequency_fixed ⟨128, 255, 1000⟩
    (fun _ => ⟨128, 255, 1000⟩)
    (fun n => ⟨128, 255, if n = 0 then 1000 else 500⟩) 2
    (fun _ => rfl) (fun _ => rfl)

/-- Claim C3, counterexample: starting from a fresh PWM, setting duty 1000
through the 16-bit accessor and then querying through the 8-bit accessor
leaves `duty_value = 1000 > duty_max = 255` — the invariant is not preserved
by every accessor call in every order. -/
theorem duty_invariant_violation_cex :
    ¬ PWM.Inv ((((PWM.init 1000).duty_cycle_16 (some 1000)).1.duty_cycle_8
        Option.none).1) := by
  decide

/-- Claim C3 (amended): the invariant `0 ≤ duty_value ≤ duty_max` holds after
construction and is re-established unconditionally by every accessor call that
supplies a value, from any state, a violated one included; a query call
preserves it provided the current denominator does not exceed the querying
accessor's own resolution maximum — but a query at a resolution below the
stored numerator violates it. -/
theorem duty_invariant_preservation (f : Int) (p : PWM) (v : Int) :
    PWM.Inv (PWM.init f) ∧
    PWM.Inv ((p.duty_cycle_8 (some v)).1) ∧
    PWM.Inv ((p.duty_cycle_10 (some v)).1) ∧
    PWM.Inv ((p.duty_cycle_12 (some v)).1) ∧
    PWM.Inv ((p.duty_cycle_16 (some v)).1) ∧
    (PWM.Inv p → p.duty_max ≤ 255 →
      PWM.Inv ((p.duty_cycle_8 Option.none).1)) ∧
    (PWM.Inv p → p.duty_max ≤ 1023 →
      PWM.Inv ((p.duty_cycle_10 Option.none).1)) ∧
    (PWM.Inv p → p.duty_max ≤ 4095 →
      PWM.Inv ((p.duty_cycle_12 Option.none).1)) ∧
    (PWM.Inv p → p.duty_max ≤ 65535 →
      PWM.Inv ((p.duty_cycle_16 Option.none).1)) := by
  simp only [PWM.Inv, PWM.init, PWM.duty_cycle_8, PWM.duty_cycle_10,
    PWM.duty_cycle_12, PWM.duty_cycle_16]
  refine ⟨?_, ?_, ?_, ?_, ?_, ?_, ?_, ?_, ?_⟩ <;> omega

/-- Claim C3, witness: the setter parts exercised from a state that violates
the invariant (numerator 1000 over denominator 255), the query parts from a
fresh PWM. -/
theorem duty_invariant_preservation_witness :
    PWM.Inv (PWM.init 5) ∧
    PWM.Inv
      (((((PWM.init 1000).duty_cycle_16 (some 1000)).1.duty_cycle_8
          Option.none).1.duty_cycle_8 (some 9999)).1) ∧
    PWM.Inv
      (((((PWM.init 1000).duty_cycle_16 (some 1000)).1.duty_cycle_8
          Option.none).1.duty_cycle_10 (some 9999)).1) ∧
    PWM.Inv
      (((((PWM.init 1000).duty_cycle_16 (some 1000)).1.duty_cycle_8
          Option.none).1.duty_cycle_12 (some 9999)).1) ∧
    PWM.Inv
      (((((PWM.init 1000).duty_cycle_16 (some 1000)).1.duty_cycle_8
          Option.none).1.duty_cycle_16 (some 9999)).1) ∧
    PWM.Inv (((PWM.init 2000).duty_cycle_8 Option.none).1) ∧
    PWM.Inv (((PWM.init 2000).duty_cycle_10 Option.none).1) ∧
    PWM.Inv (((PWM.init 2000).duty_cycle_12 Option.none).1) ∧
    PWM.Inv (((PWM.init 2000).duty_cycle_16 Option.none).1) := by
  have hs := duty_invariant_preservation 5
    ((((PWM.init 1000).duty_cycle_16 (some 1000)).1.duty_cycle_8
      Option.none).1) 9999
  have hq := duty_invariant_preservation 5 (PWM.init 2000) 9999
  exact ⟨hs.1, hs.2.1, hs.2.2.1, hs.2.2.2.1, hs.2.2.2.2.1,
    hq.2.2.2.2.2.1 (by decide) (by decide),
    hq.2.2.2.2.2.2.1 (by decide) (by decide),
    hq.2.2.2.2.2.2.2.1 (by decide) (by decide),
    hq.2.2.2.2.2.2.2.2 (by decide) (by decide)⟩

/-- Claim C4, counterexample: the `PWM.frequency` setter accepts the
non-positive value 0 without any error and stores it — the stored frequency is
not left unchanged and nothing is rejected. -/
theorem pwm_setter_accepts_nonpositive_cex :
    ((PWM.init 1000).setFrequency 0).frequency = 0 ∧
    ((PWM.init 1000).setFrequency 0).frequency ≠ 1000 := by
  refine ⟨rfl, by decide⟩

/-- Claim C4 (amended): the `PWM.frequency` setter performs no validation and
stores any value, non-positive included; `LEDRGB.frequency` is the method that
rejects a non-positive value, raising ValueError (not StateError) before any
mutation; duty values out of range are never errors — they are clamped
silently into range. -/
theorem frequency_validation_behavior
    (p : PWM) (l : LEDRGB) (v n : Int) (hv : v ≤ 0) :
    (p.setFrequency v).frequency = v ∧
    LEDRGB.frequencyMethod l (some v) =
      Except.error (PyError.valueError "La fréquence doit être > 0 Hz") ∧
    (0 ≤ ((p.duty_cycle_8 (some n)).1).duty_value ∧
      ((p.duty_cycle_8 (some n)).1).duty_value ≤ 255) ∧
    (0 ≤ ((p.duty_cycle_16 (some n)).1).duty_value ∧
      ((p.duty_cycle_16 (some n)).1).duty_value ≤ 65535) := by
  refine ⟨rfl, ?_, ?_, ?_⟩
  · simp [LEDRGB.frequencyMethod, hv]
  · simp only [PWM.duty_cycle_8]
    constructor <;> omega
  · simp only [PWM.duty_cycle_16]
    constructor <;> omega

/-- Claim C4, witness at frequency value 0 and duty value -7. -/
theorem frequency_validation_behavior_witness :
    ((PWM.init 2000).setFrequency 0).frequency = 0 ∧
    LEDRGB.frequencyMethod (LEDRGB.init 1000) (some 0) =
      Except.error (PyError.valueError "La fréquence doit être > 0 Hz") ∧
    (0 ≤ (((PWM.init 2000).duty_cycle_8 (some (-7))).1).duty_value ∧
      (((PWM.init 2000).duty_cycle_8 (some (-7))).1).duty_value ≤ 255) ∧
    (0 ≤ (((PWM.init 2000).duty_cycle_16 (some (-7))).1).duty_value ∧
      (((PWM.init 2000).duty_cycle_16 (some (-7))).1).duty_value ≤ 65535) :=
  frequency_validation_behavior (PWM.init 2000) (LEDRGB.init 1000) 0 (-7)
    (by decide)

/-- Claim C7: `stop` is idempotent — on any PWM state reachable through the
PWM interface (running, or with the pin already low), calling `stop` twice
gives the same end state as calling it once, the pin ends at logic 0 with
`running = false`, and the second call performs no write and joins no
thread. -/
theorem stop_idempotent (p : PWM)
    (h : p.running = true ∨ p.pin.state = 0) :
    ((p.stop.1.stop).1 = p.stop.1) ∧
    (p.stop.1.running = false) ∧
    ((p.stop.1.stop).2.1 = false) ∧
    ((p.stop.1.stop).2.2 = false) ∧
    ((p.stop.1.stop).1.pin.state = 0) := by
  by_cases hr : p.running
  · simp [PWM.stop, hr, coerceBit, pyTruthy]
  · have h0 : p.pin.state = 0 := by
      rcases h with h | h
      · exact absurd h hr
      · exact h
    simp [PWM.stop, hr, h0]

/-- Claim C7, witness on a freshly started PWM. -/
theorem stop_idempotent_witness :
    (((((PWM.init 1000).start).stop.1.stop).1 =
        ((PWM.init 1000).start).stop.1) ∧
      (((PWM.init 1000).start).stop.1.running = false) ∧
      ((((PWM.init 1000).start).stop.1.stop).2.1 = false) ∧
      ((((PWM.init 1000).start).stop.1.stop).2.2 = false) ∧
      ((((PWM.init 1000).start).stop.1.stop).1.pin.state = 0)) :=
  stop_idempotent ((PWM.init 1000).start) (Or.inl rfl)

end Gpiodzero
